import Mathlib

/-!
Verification development for the `nutanix_scripts` provisioning tool
(`api.py`, `exceptions.py`, `prepare_kubernetes_env.py`).

The Python code is shallowly embedded: hypervisor responses and cluster
state are explicit data, every fallible operation returns `Except NxError`,
and the side effects of the orchestrator (task submissions, task waits,
the inventory-file write) are recorded as explicit event traces.
-/

namespace K8sNutanix

/-- A network entity as returned by the `networks` endpoint
(`api.py`, `NutanixApi.networks`): only the fields the scripts read. -/
structure NetworkEnt where
  name : String
  uuid : String
deriving DecidableEq, Repr

/-- An image entity as returned by the `images` endpoint
(`api.py`, `NutanixApi.images`): only the fields the scripts read. -/
structure ImageEnt where
  name : String
  vm_disk_id : String
deriving DecidableEq, Repr

/-- A VM entity as returned by the `vms` search endpoint
(`api.py`, `NutanixApi.vms`): only the fields the scripts read. -/
structure VmEnt where
  vmName : String
  uuid : String
  ipAddresses : List String
deriving DecidableEq, Repr

/-- The exception taxonomy of `exceptions.py`, each carrying its formatted
message string.  `indexError` stands for Python's built-in `IndexError`
(raised by `vms[0]` on an empty list); the remaining constructors are the
custom exception classes. -/
inductive NxError where
  | itemDoesNotExist (msg : String)
  | invalidNumberOfItems (msg : String)
  | taskFailed (msg : String)
  | missingKeys (msg : String)
  | configurationError (msg : String)
  | indexError
deriving DecidableEq, Repr

/-- `ItemDoesNotExist.MESSAGE = '{} {} does not exist'` applied to its two
arguments (`exceptions.py`). -/
def itemDoesNotExistMsg (kind name : String) : String :=
  kind ++ " " ++ name ++ " does not exist"

/-- `InvalidNumberOfItems.INVALID_COUNT =
'There is {} {} with name {}, expected number was {}.'` applied to its four
arguments (`exceptions.py`); the first is the actual count and the last the
expected count. -/
def invalidCountMsg (actual : Nat) (kind name : String) (expected : Nat) : String :=
  "There is " ++ toString actual ++ " " ++ kind ++ " with name " ++ name ++
    ", expected number was " ++ toString expected ++ "."

/-- `MissingKeys.MESSAGE` formatted with `SSH_KEY_FILE_PATTERN.pattern`
(`exceptions.py`, `prepare_kubernetes_env.py`). -/
def missingKeysMsg : String :=
  "There weren\x27t any file matching (?P<username>[a-z_][a-z0-9_-]*[$]?)\\.pub format in ssh keys directory"

/-- `ConfigurationError.INVALID_DOMAIN` (`exceptions.py`). -/
def invalidDomainMsg : String :=
  "Kubernetes cluster name(domain) need to match RFC 1035"

/-- `ConfigurationError.MISSING_FIELD = 'Configuration missing field {}'`
applied to its argument (`exceptions.py`). -/
def missingFieldMsg (field : String) : String :=
  "Configuration missing field " ++ field

/-- The JSON body returned by the `vms?searchString=` endpoint as the
scripts read it: the entity list and `metadata.count`. -/
structure VmsResponse where
  entities : List VmEnt
  count : Nat
deriving DecidableEq, Repr

/-- `Nutanix.get_vms` (`api.py` lines 354-381) applied to the response the
API returned for `query`.  With no expected count it returns the entities
unchanged; otherwise it compares `metadata.count` against the expectation,
raising `ItemDoesNotExist` on a zero count and `InvalidNumberOfItems` on any
other mismatch. -/
def get_vms (resp : VmsResponse) (query : String) (expected_count : Option Nat) :
    Except NxError (List VmEnt) :=
  match expected_count with
  | none => .ok resp.entities
  | some ec =>
    if resp.count = ec then .ok resp.entities
    else if resp.count = 0 then
      .error (.itemDoesNotExist (itemDoesNotExistMsg "Vm" query))
    else
      .error (.invalidNumberOfItems (invalidCountMsg resp.count "vms" query ec))

/-- `Nutanix.get_network` (`api.py` lines 552-577): filter the cluster's
networks by exact name, demand exactly one match. -/
def get_network (networks : List NetworkEnt) (network_name : String) :
    Except NxError NetworkEnt :=
  match networks.filter (fun n => n.name == network_name) with
  | [n] => .ok n
  | [] => .error (.itemDoesNotExist (itemDoesNotExistMsg "network" network_name))
  | a :: b :: t =>
      .error (.invalidNumberOfItems
        (invalidCountMsg (a :: b :: t).length "networks" network_name 1))

/-- `Nutanix.get_image` (`api.py` lines 613-640): filter the cluster's
images by exact name, demand exactly one match. -/
def get_image (images : List ImageEnt) (image_name : String) :
    Except NxError ImageEnt :=
  match images.filter (fun i => i.name == image_name) with
  | [i] => .ok i
  | [] => .error (.itemDoesNotExist (itemDoesNotExistMsg "image" image_name))
  | a :: b :: t =>
      .error (.invalidNumberOfItems
        (invalidCountMsg (a :: b :: t).length "images" image_name 1))

/-- The fields of a task-status response that `wait_for_task` branches on
(`api.py` lines 579-611); the fields used only for logging
(`operation_type`, `uuid`, timestamps) are omitted. -/
structure TaskInfo where
  progress_status : String
  percentage_complete : Nat
deriving DecidableEq, Repr

/-- `TaskFailed.MESSAGE` formatted with the task-status payload
(`exceptions.py`); the payload is rendered from the modelled fields. -/
def taskFailedMsg (t : TaskInfo) : String :=
  "Task Failed. Detailed info: \x7b\x27progress_status\x27: \x27" ++
    t.progress_status ++ "\x27, \x27percentage_complete\x27: " ++
    toString t.percentage_complete ++ "\x7d"

/-- Outcome of one iteration of the `wait_for_task` loop body. -/
inductive TaskStep where
  | failed
  | succeeded
  | poll
deriving DecidableEq, Repr

/-- One iteration of the `while True` body of `Nutanix.wait_for_task`
(`api.py` lines 588-611): `Failed` status raises, `percentage_complete ==
100` together with `Succeeded` breaks, anything else sleeps `SLEEP_TIME`
seconds and polls again. -/
def wait_step (t : TaskInfo) : TaskStep :=
  if t.progress_status == "Failed" then .failed
  else if t.percentage_complete == 100 && t.progress_status == "Succeeded" then .succeeded
  else .poll

/-- `Nutanix.SLEEP_TIME` (`api.py` line 291): seconds slept between polls. -/
def SLEEP_TIME : Nat := 5

/-- `Nutanix.wait_for_task` run against the finite sequence of task-status
payloads the successive `tasks` fetches return.  `none` means the observed
fetches were exhausted with the loop still polling. -/
def wait_for_task : List TaskInfo → Option (Except NxError Unit)
  | [] => none
  | t :: ts =>
    match wait_step t with
    | .failed => some (.error (.taskFailed (taskFailedMsg t)))
    | .succeeded => some (.ok ())
    | .poll => wait_for_task ts

/-- `Nutanix.vm_name` (`api.py` lines 396-407):
`"%s-%s-%s" % (role, number, vm_domain)`. -/
def vm_name (number : Nat) (role : String) (vm_domain : String) : String :=
  role ++ "-" ++ toString number ++ "-" ++ vm_domain

/-- One clone specification as built by `Nutanix.__prepare_clone`
(`api.py` lines 502-518). -/
structure CloneSpec where
  name : String
  memory_mb : Nat
  num_vcpus : Nat
  override_network_config : Bool
deriving DecidableEq, Repr

/-- `Nutanix.__prepare_clone` (`api.py` lines 502-518). -/
def prepare_clone (vmName : String) (ram vcpu : Nat) : CloneSpec :=
  { name := vmName
    memory_mb := ram * 1024
    num_vcpus := vcpu
    override_network_config := false }

/-- A per-role node-shape record as built by `get_kubernetes_config`
(`prepare_kubernetes_env.py` lines 136-168). -/
structure NodeRoleConfig where
  role : String
  number_of_nodes : Nat
  number_of_vcpu : Nat
  ram_size : Nat
deriving DecidableEq, Repr

/-- The `spec_list` built by the nested loops of `Nutanix.clone_vm`
(`api.py` lines 534-546): for each role configuration, one spec per
`number in range(number_of_nodes)`, named by `vm_name`. -/
def clone_spec_list (configs : List NodeRoleConfig) (vm_domain : String) :
    List CloneSpec :=
  configs.flatMap (fun c =>
    (List.range c.number_of_nodes).map (fun number =>
      prepare_clone (vm_name number c.role vm_domain) c.ram_size c.number_of_vcpu))

/-- The hypervisor-visible cluster state the scripts read and mutate. -/
structure Cluster where
  networks : List NetworkEnt
  images : List ImageEnt
  vms : List VmEnt
deriving DecidableEq, Repr

/-- Whether `needle` occurs contiguously inside `hay`. -/
def isSubstrOf (needle : List Char) : List Char → Bool
  | [] => needle.isEmpty
  | c :: t => needle.isPrefixOf (c :: t) || isSubstrOf needle t

/-- The entity list the `vms?searchString=query` endpoint returns for a
cluster state: the VMs whose name contains `query` as a substring. -/
def searchVms (st : Cluster) (query : String) : List VmEnt :=
  st.vms.filter (fun v => isSubstrOf query.data v.vmName.data)

/-- `Nutanix.get_vms` applied against a cluster state; the endpoint's
`metadata.count` is the length of the entity list it returns. -/
def get_vms_st (st : Cluster) (query : String) (expected_count : Option Nat) :
    Except NxError (List VmEnt) :=
  get_vms ⟨searchVms st query, (searchVms st query).length⟩ query expected_count

/-- `Nutanix.get_vms_property` (`api.py` lines 383-394): map each found VM
to a `(vmName, property)` pair.  The Python dict comprehension is modelled
as the association list in search order. -/
def get_vms_property (st : Cluster) (query : String) (vmProperty : VmEnt → α) :
    List (String × α) :=
  (searchVms st query).map (fun vm => (vm.vmName, vmProperty vm))

/-- Observable side effects of the orchestrator: task submissions to the
hypervisor, `wait_for_task` calls on the task just returned, and the final
inventory-file write of `prepare_env`. -/
inductive PEvent where
  | submitCreateImage
  | submitCreateVm
  | submitClone (specs : List CloneSpec)
  | submitPower (uuid : String)
  | waitTask
  | writeInventory (content : String)
deriving DecidableEq, Repr

/-- Whether an event is a task-returning submission (create, clone or
power-state call). -/
def isSubmit : PEvent → Bool
  | .submitCreateImage => true
  | .submitCreateVm => true
  | .submitClone _ => true
  | .submitPower _ => true
  | _ => false

/-- Whether every task-returning submission in a trace is immediately
followed by a `wait_for_task` call on the task it returned. -/
def eachSubmitWaited : List PEvent → Bool
  | [] => true
  | e :: rest =>
    if isSubmit e then
      match rest with
      | .waitTask :: rest2 => eachSubmitWaited rest2
      | _ => false
    else eachSubmitWaited rest

/-- The inventory-write events of a trace. -/
def writeEvents (tr : List PEvent) : List PEvent :=
  tr.filter (fun e => match e with | .writeInventory _ => true | _ => false)

/-- `Nutanix.create_image` (`api.py` lines 642-666): submit the
`images_create` task and wait on it.  `task` is the outcome `wait_for_task`
reports for it; a successful task makes the hypervisor create one image
with the requested name (external effect of the create call). -/
def create_image (st : Cluster) (image_name storage_container_name os_image_url : String)
    (task : Except NxError Unit) : Except NxError Unit × Cluster × List PEvent :=
  match task with
  | .ok () =>
      (.ok (),
       { st with images := st.images ++ [⟨image_name, "vm-disk-" ++ image_name⟩] },
       [.submitCreateImage, .waitTask])
  | .error e => (.error e, st, [.submitCreateImage, .waitTask])

/-- `Nutanix.create_vm` (`api.py` lines 409-468): submit the `vms_create`
task and wait on it.  `task` is the outcome `wait_for_task` reports; a
successful task makes the hypervisor create one VM with the requested name
and no IP addresses yet (external effect of the create call). -/
def create_vm (st : Cluster) (name : String) (task : Except NxError Unit) :
    Except NxError Unit × Cluster × List PEvent :=
  match task with
  | .ok () =>
      (.ok (),
       { st with vms := st.vms ++ [⟨name, "uuid-" ++ name, []⟩] },
       [.submitCreateVm, .waitTask])
  | .error e => (.error e, st, [.submitCreateVm, .waitTask])

/-- `Nutanix.clone_vm` (`api.py` lines 520-550): build the whole
`spec_list`, submit it as one `vms_clone` task and wait on it.  A
successful task makes the hypervisor create one VM per spec (external
effect of the clone call). -/
def clone_vm (st : Cluster) (configs : List NodeRoleConfig) (vm_domain : String)
    (task : Except NxError Unit) : Except NxError Unit × Cluster × List PEvent :=
  let specs := clone_spec_list configs vm_domain
  match task with
  | .ok () =>
      (.ok (),
       { st with vms := st.vms ++ specs.map (fun s => ⟨s.name, "uuid-" ++ s.name, []⟩) },
       [.submitClone specs, .waitTask])
  | .error e => (.error e, st, [.submitClone specs, .waitTask])

/-- `Nutanix.set_vm_power` (`api.py` lines 694-705): submit the
`set_power_state` call and return — the source does not wait on the
returned task. -/
def set_vm_power (vm_uuid : String) (state : String) : List PEvent :=
  [.submitPower vm_uuid]

/-- `Nutanix.get_or_create_os_image` (`api.py` lines 668-692): look the
image up by name; on `ItemDoesNotExist` create it and look it up again; any
other error propagates.  `task` is the creation task's outcome when the
create path runs. -/
def get_or_create_os_image (st : Cluster)
    (image_name storage_container_name os_image_url : String)
    (task : Except NxError Unit) :
    Except NxError ImageEnt × Cluster × List PEvent :=
  match get_image st.images image_name with
  | .ok img => (.ok img, st, [])
  | .error (.itemDoesNotExist _) =>
      let r := create_image st image_name storage_container_name os_image_url task
      match r.1 with
      | .ok () => (get_image r.2.1.images image_name, r.2.1, r.2.2)
      | .error e => (.error e, r.2.1, r.2.2)
  | .error e => (.error e, st, [])

/-- The `vms[0]` access at the end of `Nutanix.get_or_create_vm`. -/
def headVm : List VmEnt → Except NxError VmEnt
  | v :: _ => .ok v
  | [] => .error .indexError

/-- `Nutanix.get_or_create_vm` (`api.py` lines 470-500): search by name
expecting one match; on `ItemDoesNotExist` create the VM and search again;
any other error propagates; return the first element of the result list.
`task` is the creation task's outcome when the create path runs. -/
def get_or_create_vm (st : Cluster) (name : String) (task : Except NxError Unit) :
    Except NxError VmEnt × Cluster × List PEvent :=
  match get_vms_st st name (some 1) with
  | .ok vs => (headVm vs, st, [])
  | .error (.itemDoesNotExist _) =>
      let r := create_vm st name task
      match r.1 with
      | .ok () =>
          (match get_vms_st r.2.1 name (some 1) with
           | .ok vs => headVm vs
           | .error e => .error e,
           r.2.1, r.2.2)
      | .error e => (.error e, r.2.1, r.2.2)
  | .error e => (.error e, st, [])

/-- Character class `[a-z_]`: the first character of the `username` group
of `SSH_KEY_FILE_PATTERN` (`prepare_kubernetes_env.py` line 78). -/
def isUserStart (c : Char) : Bool :=
  (decide (97 <= c.toNat) && decide (c.toNat <= 122)) || c == '_'

/-- Character class `[a-z0-9_-]`: the continuation characters of the
`username` group of `SSH_KEY_FILE_PATTERN`. -/
def isUserCont (c : Char) : Bool :=
  (decide (97 <= c.toNat) && decide (c.toNat <= 122)) ||
    (decide (48 <= c.toNat) && decide (c.toNat <= 57)) ||
    c == '_' || c == '-'

/-- `SSH_KEY_FILE_PATTERN.match(file_name)` for the pattern
`(?P<username>[a-z_][a-z0-9_-]*[$]?)\.pub`: anchored at the start of the
name but not at its end (Python `re.match`).  Returns the captured
`username` group.  The greedy `[a-z0-9_-]*` takes the maximal run; since
neither `$` nor `.` is a continuation character, backtracking the star can
never produce a match the maximal run misses, so the maximal run suffices. -/
def sshKeyMatch : List Char → Option (List Char)
  | [] => none
  | c :: cs =>
    if isUserStart c then
      let run := cs.takeWhile isUserCont
      let rest := cs.dropWhile isUserCont
      match rest with
      | '$' :: rest2 =>
          if [ '.', 'p', 'u', 'b'].isPrefixOf rest2 then some (c :: run ++ ['$'])
          else none
      | _ =>
          if [ '.', 'p', 'u', 'b'].isPrefixOf rest then some (c :: run)
          else none
    else none

/-- `CLOUD_CONFIG_HEADER` (`prepare_kubernetes_env.py` lines 66-69). -/
def CLOUD_CONFIG_HEADER : String := "#cloud-config\nusers:"

/-- `CLOUD_CONFIG_USER_PART` (`prepare_kubernetes_env.py` lines 70-77)
formatted with a username and a key. -/
def cloud_config_user_part (username ssh_key : String) : String :=
  "  - name: " ++ username ++ "\n    shell: /bin/bash\n    sudo: [\x27ALL=(ALL) NOPASSWD:ALL\x27]\n    lock_passwd: true\n    ssh-authorized-keys:\n      - " ++ ssh_key

/-- `generate_cloud_config` (`prepare_kubernetes_env.py` lines 81-112) over
a directory listing given as `(file name, file contents)` pairs in listing
order: one user block per entry whose name matches `SSH_KEY_FILE_PATTERN`,
with the key contents stripped; `MissingKeys` when no entry matches. -/
def generate_cloud_config (entries : List (String × String)) :
    Except NxError String :=
  let cloud_config_parts := entries.filterMap (fun e =>
    match sshKeyMatch e.1.data with
    | some u => some (cloud_config_user_part (String.mk u) e.2.trim)
    | none => none)
  if cloud_config_parts.isEmpty then .error (.missingKeys missingKeysMsg)
  else .ok (String.intercalate "\n" (CLOUD_CONFIG_HEADER :: cloud_config_parts))

/-- Character class `[a-z0-9]` of the `DOMAIN_NAME` pattern
(`prepare_kubernetes_env.py` lines 62-64). -/
def isLowerDigit (c : Char) : Bool :=
  (decide (97 <= c.toNat) && decide (c.toNat <= 122)) ||
    (decide (48 <= c.toNat) && decide (c.toNat <= 57))

/-- One dot-separated label of `DOMAIN_NAME`:
`[a-z0-9]([-a-z0-9]*[a-z0-9])?`, i.e. nonempty, every character in
`[-a-z0-9]`, first and last in `[a-z0-9]`. -/
def labelOk (l : List Char) : Bool :=
  match l, l.getLast? with
  | [], _ => false
  | _ :: _, none => false
  | c :: rest, some d =>
      isLowerDigit c && isLowerDigit d &&
        (c :: rest).all (fun x => isLowerDigit x || x == '-')

/-- Split a character list on `.`, keeping empty segments (the boundary
behaviour of Python's regex alternative `label(\.label)*`). -/
def splitDot : List Char → List (List Char)
  | [] => [[]]
  | c :: rest =>
    if c == '.' then [] :: splitDot rest
    else
      match splitDot rest with
      | [] => [[c]]
      | l :: ls => (c :: l) :: ls

/-- `DOMAIN_NAME.match(k8s_cluster_name)` (`prepare_kubernetes_env.py`
lines 62-64, 191): the name splits on `.` into valid labels. -/
def domainOk (s : String) : Bool :=
  (splitDot s.data).all labelOk

/-- The IP-readiness polling loop of `prepare_env`
(`prepare_kubernetes_env.py` lines 260-268) run against the finite sequence
of name-to-`ipAddresses` snapshots the successive `get_vms_property`
fetches return: exit with the first snapshot in which every VM has a
non-empty IP list; `none` means the observed fetches were exhausted with
the loop still polling. -/
def poll_ips : List (List (String × List String)) → Option (List (String × List String))
  | [] => none
  | m :: rest => if m.all (fun p => !p.2.isEmpty) then some m else poll_ips rest

/-- `INVENTORY_CONST` (`prepare_kubernetes_env.py` lines 37-46). -/
def INVENTORY_CONST : List String :=
  ["\n[etcd:children]",
   "kube-master",
   "\n[k8s-cluster:children]",
   "kube-node",
   "kube-master",
   "\n[k8s-cluster:vars]",
   "ansible_become=true",
   "ansible_ssh_common_args=\"-o UserKnownHostsFile=/dev/null -o StrictHostKeyChecking=no\""]

/-- The per-VM inventory lines of `prepare_env` (`prepare_kubernetes_env.py`
lines 271-275): `'{}    ansible_ssh_host={}'.format(name, node_ips[0])` for
each mapping entry.  `none` models the `IndexError` the `node_ips[0]`
access would raise on an empty IP list. -/
def inventory_host_lines : List (String × List String) → Option (List String)
  | [] => some []
  | p :: rest =>
    match p.2 with
    | [] => none
    | ip :: _ =>
      match inventory_host_lines rest with
      | none => none
      | some ls => some ((p.1 ++ "    ansible_ssh_host=" ++ ip) :: ls)

/-- The full inventory document of `prepare_env` (`prepare_kubernetes_env.py`
lines 271-290): host lines, the `[kube-master]` and `[kube-node]` groups by
name prefix, then `INVENTORY_CONST`, joined by newlines. -/
def render_inventory (m : List (String × List String)) (hostLines : List String) :
    String :=
  String.intercalate "\n"
    (hostLines ++
     ["\n[kube-master]"] ++ (m.map (·.1)).filter (·.startsWith "master") ++
     ["\n[kube-node]"] ++ (m.map (·.1)).filter (·.startsWith "worker") ++
     INVENTORY_CONST)

/-- The `common` section of the Kubernetes config as `prepare_env` reads it
(`prepare_kubernetes_env.py` lines 209-222): each field access can raise a
`KeyError`, modelled by `Option`. -/
structure CommonConfig where
  network_name : Option String
  os_image_name : Option String
  storage_container_name : Option String
deriving DecidableEq, Repr

/-- The result of `get_kubernetes_config` (`prepare_kubernetes_env.py`
lines 115-173). -/
structure K8sConfigs where
  common : CommonConfig
  master : NodeRoleConfig
  worker : NodeRoleConfig
deriving DecidableEq, Repr

/-- The external inputs of one `prepare_env` run: environment variables,
the outcomes of the two config loads and of the API connection, the
hypervisor's cluster state, the SSH key directory listing, the outcomes the
hypervisor reports for the three task waits, and the snapshots the
IP-readiness poll observes. -/
structure World where
  k8sClusterName : String
  k8sConfig : Except NxError K8sConfigs
  connect : Except NxError Unit
  cluster : Cluster
  baseVmName : String
  sshDir : List (String × String)
  createImageTask : Except NxError Unit
  createVmTask : Except NxError Unit
  cloneTask : Except NxError Unit
  ipSnapshots : List (List (String × List String))

/-- Outcome of a `prepare_env` run: normal completion, an uncaught
exception, or still inside an unterminated polling loop when the observed
snapshots ran out. -/
inductive RunOutcome where
  | ok
  | failed (e : NxError)
  | polling
deriving DecidableEq, Repr

/-- `OS_IMAGE_URL` (`prepare_kubernetes_env.py` line 27). -/
def OS_IMAGE_URL : String :=
  "http://cloud.centos.org/centos/7/images/CentOS-7-x86_64-GenericCloud-1702.qcow2c"

/-- `prepare_env` (`prepare_kubernetes_env.py` lines 176-295), step by step
in source order: domain check, config load, API connection, pre-flight VM
search expecting zero, network lookup, image get-or-create, cloud-config
generation, base-VM get-or-create, clone, post-clone count check, power-on
of every found VM, IP-readiness poll, inventory render and write.  Returns
the run outcome and the trace of observable side effects. -/
def prepare_env (w : World) : RunOutcome × List PEvent :=
  if !domainOk w.k8sClusterName then
    (.failed (.configurationError invalidDomainMsg), [])
  else match w.k8sConfig with
  | .error e => (.failed e, [])
  | .ok cfg =>
  match w.connect with
  | .error e => (.failed e, [])
  | .ok () =>
  match get_vms_st w.cluster w.k8sClusterName (some 0) with
  | .error e => (.failed e, [])
  | .ok _ =>
  match cfg.common.network_name with
  | none => (.failed (.configurationError (missingFieldMsg "network_name")), [])
  | some network_name =>
  match get_network w.cluster.networks network_name with
  | .error e => (.failed e, [])
  | .ok _network =>
  match cfg.common.os_image_name, cfg.common.storage_container_name with
  | none, _ => (.failed (.configurationError (missingFieldMsg "storage_container_name")), [])
  | _, none => (.failed (.configurationError (missingFieldMsg "storage_container_name")), [])
  | some os_image_name, some storage_container_name =>
  let ri := get_or_create_os_image w.cluster os_image_name storage_container_name
    OS_IMAGE_URL w.createImageTask
  match ri.1 with
  | .error e => (.failed e, ri.2.2)
  | .ok _os_image =>
  match generate_cloud_config w.sshDir with
  | .error e => (.failed e, ri.2.2)
  | .ok _cloud_config =>
  let rv := get_or_create_vm ri.2.1 w.baseVmName w.createVmTask
  match rv.1 with
  | .error e => (.failed e, ri.2.2 ++ rv.2.2)
  | .ok base_vm =>
  let rc := clone_vm rv.2.1 [cfg.master, cfg.worker] w.k8sClusterName w.cloneTask
  match rc.1 with
  | .error e => (.failed e, ri.2.2 ++ rv.2.2 ++ rc.2.2)
  | .ok () =>
  let _ := base_vm
  let expected_count := cfg.master.number_of_nodes + cfg.worker.number_of_nodes
  match get_vms_st rc.2.1 w.k8sClusterName (some expected_count) with
  | .error e => (.failed e, ri.2.2 ++ rv.2.2 ++ rc.2.2)
  | .ok _ =>
  let powerEvents :=
    (get_vms_property rc.2.1 w.k8sClusterName (fun v => v.uuid)).flatMap
      (fun p => set_vm_power p.2 "on")
  match poll_ips w.ipSnapshots with
  | none => (.polling, ri.2.2 ++ rv.2.2 ++ rc.2.2 ++ powerEvents)
  | some vms_with_ips =>
  match inventory_host_lines vms_with_ips with
  | none => (.failed .indexError, ri.2.2 ++ rv.2.2 ++ rc.2.2 ++ powerEvents)
  | some hostLines =>
      (.ok,
       ri.2.2 ++ rv.2.2 ++ rc.2.2 ++ powerEvents ++
         [.writeInventory (render_inventory vms_with_ips hostLines)])

/-- Tail of the `username` language: zero or more `[a-z0-9_-]` characters
optionally closed by one trailing `$`. -/
def validUserTail : List Char → Bool
  | [] => true
  | c :: rest => (isUserCont c && validUserTail rest) || (c == '$' && rest.isEmpty)

/-- The exact language of the `username` group of `SSH_KEY_FILE_PATTERN`:
one `[a-z_]` character, then `[a-z0-9_-]*`, then an optional `$`. -/
def validUser : List Char → Bool
  | [] => false
  | c :: rest => isUserStart c && validUserTail rest

/-- The file-name form the claim describes, following the spec words: a
name of the exact shape `<username>.pub` whose username consists of
lowercase letters, digits, underscore and hyphen, with an optional
trailing `$`. -/
def claimedKeyFileForm (name : String) : Bool :=
  let cs := name.data
  let n := cs.length
  let u := cs.take (n - 4)
  decide (4 ≤ n) && (cs.drop (n - 4) == [ '.', 'p', 'u', 'b']) && !u.isEmpty &&
    (match u.getLast? with
     | some d =>
         if d == '$' then !u.dropLast.isEmpty && u.dropLast.all isUserCont
         else u.all isUserCont
     | none => false)

theorem clone_spec_list_names (configs : List NodeRoleConfig) (d : String) :
    (clone_spec_list configs d).map (fun s => s.name) =
      configs.flatMap (fun c =>
        (List.range c.number_of_nodes).map (fun i => vm_name i c.role d)) := by
  induction configs with
  | nil => rfl
  | cons c cs ih =>
      have hstep : clone_spec_list (c :: cs) d =
          (List.range c.number_of_nodes).map (fun number =>
            prepare_clone (vm_name number c.role d) c.ram_size c.number_of_vcpu) ++
            clone_spec_list cs d := rfl
      rw [hstep, List.map_append, List.map_map, ih]
      rfl

theorem clone_spec_list_length (configs : List NodeRoleConfig) (d : String) :
    (clone_spec_list configs d).length =
      (configs.map (fun c => c.number_of_nodes)).sum := by
  induction configs with
  | nil => rfl
  | cons c cs ih =>
      have hstep : clone_spec_list (c :: cs) d =
          (List.range c.number_of_nodes).map (fun number =>
            prepare_clone (vm_name number c.role d) c.ram_size c.number_of_vcpu) ++
            clone_spec_list cs d := rfl
      rw [hstep]
      simp [ih]

theorem wait_step_failed_iff (t : TaskInfo) :
    wait_step t = .failed ↔ t.progress_status = "Failed" := by
  unfold wait_step
  split <;> rename_i h
  · simp_all
  · split <;> rename_i h2 <;> simp_all

theorem wait_step_succeeded_iff (t : TaskInfo) :
    wait_step t = .succeeded ↔
      (t.percentage_complete = 100 ∧ t.progress_status = "Succeeded") := by
  unfold wait_step
  split <;> rename_i h
  · simp_all
  · split <;> rename_i h2 <;> simp_all

/-- C1: for each name-based lookup (`get_network`, `get_image`, and
`get_vms` with expected count 1): exactly one match returns that entity,
zero matches raises `ItemDoesNotExist`, and two or more matches raise
`InvalidNumberOfItems` whose message holds the actual count and the
expected count 1. -/
theorem C1_name_lookup_contract (networks : List NetworkEnt)
    (images : List ImageEnt) (st : Cluster) (nname iname q : String) :
    (∀ n, networks.filter (fun x => x.name == nname) = [n] →
       get_network networks nname = .ok n) ∧
    (networks.filter (fun x => x.name == nname) = [] →
       get_network networks nname =
         .error (.itemDoesNotExist (itemDoesNotExistMsg "network" nname))) ∧
    (2 ≤ (networks.filter (fun x => x.name == nname)).length →
       get_network networks nname =
         .error (.invalidNumberOfItems (invalidCountMsg
           (networks.filter (fun x => x.name == nname)).length "networks" nname 1))) ∧
    (∀ i, images.filter (fun x => x.name == iname) = [i] →
       get_image images iname = .ok i) ∧
    (images.filter (fun x => x.name == iname) = [] →
       get_image images iname =
         .error (.itemDoesNotExist (itemDoesNotExistMsg "image" iname))) ∧
    (2 ≤ (images.filter (fun x => x.name == iname)).length →
       get_image images iname =
         .error (.invalidNumberOfItems (invalidCountMsg
           (images.filter (fun x => x.name == iname)).length "images" iname 1))) ∧
    (∀ v, searchVms st q = [v] → get_vms_st st q (some 1) = .ok [v]) ∧
    (searchVms st q = [] →
       get_vms_st st q (some 1) =
         .error (.itemDoesNotExist (itemDoesNotExistMsg "Vm" q))) ∧
    (2 ≤ (searchVms st q).length →
       get_vms_st st q (some 1) =
         .error (.invalidNumberOfItems (invalidCountMsg
           (searchVms st q).length "vms" q 1))) := by
  refine ⟨?_, ?_, ?_, ?_, ?_, ?_, ?_, ?_, ?_⟩
  · intro n h
    unfold get_network
    rw [h]
  · intro h
    unfold get_network
    rw [h]
  · intro h
    rcases hl : networks.filter (fun x => x.name == nname) with _ | ⟨a, _ | ⟨b, t⟩⟩
    · rw [hl] at h; simp at h
    · rw [hl] at h; simp at h
    · unfold get_network
      rw [hl]
  · intro i h
    unfold get_image
    rw [h]
  · intro h
    unfold get_image
    rw [h]
  · intro h
    rcases hl : images.filter (fun x => x.name == iname) with _ | ⟨a, _ | ⟨b, t⟩⟩
    · rw [hl] at h; simp at h
    · rw [hl] at h; simp at h
    · unfold get_image
      rw [hl]
  · intro v h
    unfold get_vms_st get_vms
    rw [h]
    rfl
  · intro h
    unfold get_vms_st get_vms
    rw [h]
    rfl
  · intro h
    rcases hl : searchVms st q with _ | ⟨a, _ | ⟨b, t⟩⟩
    · rw [hl] at h; simp at h
    · rw [hl] at h; simp at h
    · unfold get_vms_st get_vms
      rw [hl]
      have h1 : ¬((a :: b :: t).length = 1) := by simp
      have h0 : ¬((a :: b :: t).length = 0) := by simp
      simp only [h1, h0, if_false, ite_false]

/-- Witness for C1 at concrete clusters: one match, zero matches and two
matches for each of the three lookups. -/
theorem C1_name_lookup_contract_witness :
    get_network [⟨"net", "u1"⟩] "net" = .ok ⟨"net", "u1"⟩ ∧
    get_network [] "net" =
      .error (.itemDoesNotExist (itemDoesNotExistMsg "network" "net")) ∧
    get_network [⟨"net", "u1"⟩, ⟨"net", "u2"⟩] "net" =
      .error (.invalidNumberOfItems (invalidCountMsg 2 "networks" "net" 1)) ∧
    get_image [⟨"img", "d1"⟩] "img" = .ok ⟨"img", "d1"⟩ ∧
    get_image [] "img" =
      .error (.itemDoesNotExist (itemDoesNotExistMsg "image" "img")) ∧
    get_image [⟨"img", "d1"⟩, ⟨"img", "d2"⟩] "img" =
      .error (.invalidNumberOfItems (invalidCountMsg 2 "images" "img" 1)) ∧
    get_vms_st ⟨[], [], [⟨"vm", "u1", []⟩]⟩ "vm" (some 1) = .ok [⟨"vm", "u1", []⟩] ∧
    get_vms_st ⟨[], [], []⟩ "vm" (some 1) =
      .error (.itemDoesNotExist (itemDoesNotExistMsg "Vm" "vm")) ∧
    get_vms_st ⟨[], [], [⟨"vm", "u1", []⟩, ⟨"vm", "u2", []⟩]⟩ "vm" (some 1) =
      .error (.invalidNumberOfItems (invalidCountMsg 2 "vms" "vm" 1)) := by
  refine ⟨(C1_name_lookup_contract [⟨"net", "u1"⟩] [] ⟨[], [], []⟩ "net" "x" "x").1
      ⟨"net", "u1"⟩ (by decide),
    (C1_name_lookup_contract [] [] ⟨[], [], []⟩ "net" "x" "x").2.1 (by decide),
    ?_, ?_, ?_, ?_, ?_, ?_, ?_⟩
  · exact (C1_name_lookup_contract [⟨"net", "u1"⟩, ⟨"net", "u2"⟩] [] ⟨[], [], []⟩
      "net" "x" "x").2.2.1 (by decide)
  · exact (C1_name_lookup_contract [] [⟨"img", "d1"⟩] ⟨[], [], []⟩ "x" "img" "x").2.2.2.1
      ⟨"img", "d1"⟩ (by decide)
  · exact (C1_name_lookup_contract [] [] ⟨[], [], []⟩ "x" "img" "x").2.2.2.2.1 (by decide)
  · exact (C1_name_lookup_contract [] [⟨"img", "d1"⟩, ⟨"img", "d2"⟩] ⟨[], [], []⟩
      "x" "img" "x").2.2.2.2.2.1 (by decide)
  · exact (C1_name_lookup_contract [] [] ⟨[], [], [⟨"vm", "u1", []⟩]⟩
      "x" "x" "vm").2.2.2.2.2.2.1 ⟨"vm", "u1", []⟩ (by decide)
  · exact (C1_name_lookup_contract [] [] ⟨[], [], []⟩ "x" "x" "vm").2.2.2.2.2.2.2.1
      (by decide)
  · exact (C1_name_lookup_contract [] [] ⟨[], [], [⟨"vm", "u1", []⟩, ⟨"vm", "u2", []⟩]⟩
      "x" "x" "vm").2.2.2.2.2.2.2.2 (by decide)

/-- The create-call submissions of a trace. -/
def createEvents (tr : List PEvent) : List PEvent :=
  tr.filter (fun e => match e with
    | .submitCreateImage => true
    | .submitCreateVm => true
    | _ => false)

theorem get_image_ok_iff (images : List ImageEnt) (n : String) (i : ImageEnt) :
    get_image images n = .ok i ↔ images.filter (fun x => x.name == n) = [i] := by
  unfold get_image
  split <;> rename_i h <;> simp [h]

theorem get_vms_st_some_eq (st : Cluster) (q : String) (ec : Nat) :
    get_vms_st st q (some ec) =
      if (searchVms st q).length = ec then .ok (searchVms st q)
      else if (searchVms st q).length = 0 then
        .error (.itemDoesNotExist (itemDoesNotExistMsg "Vm" q))
      else
        .error (.invalidNumberOfItems
          (invalidCountMsg (searchVms st q).length "vms" q ec)) := rfl

theorem get_vms_st_single (st : Cluster) (q : String) (v : VmEnt)
    (h : searchVms st q = [v]) : get_vms_st st q (some 1) = .ok [v] := by
  rw [get_vms_st_some_eq, h]
  rfl

theorem get_vms_st_one_inv (st : Cluster) (q : String) (vs : List VmEnt)
    (h : get_vms_st st q (some 1) = .ok vs) :
    searchVms st q = vs ∧ vs.length = 1 := by
  rw [get_vms_st_some_eq] at h
  by_cases h1 : (searchVms st q).length = 1
  · rw [if_pos h1] at h
    injection h with h2
    exact ⟨h2, h2 ▸ h1⟩
  · rw [if_neg h1] at h
    by_cases h0 : (searchVms st q).length = 0
    · rw [if_pos h0] at h
      exact absurd h (by simp)
    · rw [if_neg h0] at h
      exact absurd h (by simp)

theorem headVm_ok_singleton (vs : List VmEnt) (v : VmEnt)
    (hlen : vs.length = 1) (h : headVm vs = .ok v) : vs = [v] := by
  rcases vs with _ | ⟨a, _ | ⟨b, t⟩⟩
  · simp at hlen
  · injection h with h2
    rw [h2]
  · simp at hlen

theorem gocImage_of_unique (st : Cluster) (n scn url : String)
    (task : Except NxError Unit) (i : ImageEnt)
    (h : st.images.filter (fun x => x.name == n) = [i]) :
    get_or_create_os_image st n scn url task = (.ok i, st, []) := by
  unfold get_or_create_os_image
  rw [(get_image_ok_iff st.images n i).mpr h]

theorem gocImage_ok_filter (st : Cluster) (n scn url : String)
    (task : Except NxError Unit) (i : ImageEnt) (st2 : Cluster) (evs : List PEvent)
    (h : get_or_create_os_image st n scn url task = (.ok i, st2, evs)) :
    st2.images.filter (fun x => x.name == n) = [i] := by
  unfold get_or_create_os_image at h
  rcases hg : get_image st.images n with e | img
  · rw [hg] at h
    cases e with
    | itemDoesNotExist msg =>
        cases htask : task with
        | ok u =>
            rw [htask] at h
            simp only [create_image] at h
            rw [Prod.mk.injEq, Prod.mk.injEq] at h
            rcases h with ⟨h1, h2, h3⟩
            rw [← h2]
            exact (get_image_ok_iff _ n i).mp h1
        | error e2 =>
            rw [htask] at h
            simp only [create_image] at h
            rw [Prod.mk.injEq] at h
            exact absurd h.1 (by simp)
    | invalidNumberOfItems msg => rw [Prod.mk.injEq] at h; exact absurd h.1 (by simp)
    | taskFailed msg => rw [Prod.mk.injEq] at h; exact absurd h.1 (by simp)
    | missingKeys msg => rw [Prod.mk.injEq] at h; exact absurd h.1 (by simp)
    | configurationError msg => rw [Prod.mk.injEq] at h; exact absurd h.1 (by simp)
    | indexError => rw [Prod.mk.injEq] at h; exact absurd h.1 (by simp)
  · rw [hg] at h
    rw [Prod.mk.injEq, Prod.mk.injEq] at h
    rcases h with ⟨h1, h2, h3⟩
    rw [← h2]
    apply (get_image_ok_iff st.images n i).mp
    rw [hg, h1]

theorem gocVm_of_unique (st : Cluster) (n : String) (task : Except NxError Unit)
    (v : VmEnt) (h : searchVms st n = [v]) :
    get_or_create_vm st n task = (.ok v, st, []) := by
  unfold get_or_create_vm
  rw [get_vms_st_single st n v h]
  rfl

theorem gocVm_ok_search (st : Cluster) (n : String) (task : Except NxError Unit)
    (v : VmEnt) (st2 : Cluster) (evs : List PEvent)
    (h : get_or_create_vm st n task = (.ok v, st2, evs)) :
    searchVms st2 n = [v] := by
  unfold get_or_create_vm at h
  rcases hg : get_vms_st st n (some 1) with e | vs
  · rw [hg] at h
    cases e with
    | itemDoesNotExist msg =>
        cases htask : task with
        | ok u =>
            rw [htask] at h
            simp only [create_vm] at h
            rcases hg2 : get_vms_st
                { st with vms := st.vms ++ [⟨n, "uuid-" ++ n, []⟩] } n (some 1) with
              e2 | vs2
            · rw [hg2] at h
              rw [Prod.mk.injEq] at h
              exact absurd h.1 (by simp)
            · rw [hg2] at h
              rw [Prod.mk.injEq, Prod.mk.injEq] at h
              rcases h with ⟨h1, h2, h3⟩
              rcases get_vms_st_one_inv _ n vs2 hg2 with ⟨hs, hl⟩
              rw [← h2]
              rw [hs, headVm_ok_singleton vs2 v hl h1]
        | error e2 =>
            rw [htask] at h
            simp only [create_vm] at h
            rw [Prod.mk.injEq] at h
            exact absurd h.1 (by simp)
    | invalidNumberOfItems msg => rw [Prod.mk.injEq] at h; exact absurd h.1 (by simp)
    | taskFailed msg => rw [Prod.mk.injEq] at h; exact absurd h.1 (by simp)
    | missingKeys msg => rw [Prod.mk.injEq] at h; exact absurd h.1 (by simp)
    | configurationError msg => rw [Prod.mk.injEq] at h; exact absurd h.1 (by simp)
    | indexError => rw [Prod.mk.injEq] at h; exact absurd h.1 (by simp)
  · rw [hg] at h
    rw [Prod.mk.injEq, Prod.mk.injEq] at h
    rcases h with ⟨h1, h2, h3⟩
    rcases get_vms_st_one_inv st n vs hg with ⟨hs, hl⟩
    rw [← h2, hs, headVm_ok_singleton vs v hl h1]

/-- C2: when the cluster already holds exactly one image (resp. VM) with
the requested name, the get-or-create operation returns it with no create
submission and no state change; and whenever a first get-or-create call
succeeds, the second call on the resulting state submits no create either. -/
theorem C2_get_or_create_idempotent (st st2 stv stv2 : Cluster)
    (image_name scn url vmname : String)
    (task task2 vtask vtask2 : Except NxError Unit)
    (i : ImageEnt) (v : VmEnt) (evs vevs : List PEvent) :
    (st.images.filter (fun x => x.name == image_name) = [i] →
       get_or_create_os_image st image_name scn url task = (.ok i, st, [])) ∧
    (get_or_create_os_image st image_name scn url task = (.ok i, st2, evs) →
       createEvents (get_or_create_os_image st2 image_name scn url task2).2.2 = []) ∧
    (searchVms stv vmname = [v] →
       get_or_create_vm stv vmname vtask = (.ok v, stv, [])) ∧
    (get_or_create_vm stv vmname vtask = (.ok v, stv2, vevs) →
       createEvents (get_or_create_vm stv2 vmname vtask2).2.2 = []) := by
  refine ⟨gocImage_of_unique st image_name scn url task i, ?_,
    gocVm_of_unique stv vmname vtask v, ?_⟩
  · intro h
    rw [gocImage_of_unique st2 image_name scn url task2 i
      (gocImage_ok_filter st image_name scn url task i st2 evs h)]
    rfl
  · intro h
    rw [gocVm_of_unique stv2 vmname vtask2 v
      (gocVm_ok_search stv vmname vtask v stv2 vevs h)]
    rfl

/-- Witness for C2: a cluster that already holds the image `img` and the
VM `base`; both get-or-create calls return the existing resource with an
empty trace, and repeating them submits no create. -/
theorem C2_get_or_create_idempotent_witness :
    get_or_create_os_image ⟨[], [⟨"img", "d"⟩], []⟩ "img" "sc" "u" (.ok ()) =
      (.ok ⟨"img", "d"⟩, ⟨[], [⟨"img", "d"⟩], []⟩, []) ∧
    createEvents (get_or_create_os_image ⟨[], [⟨"img", "d"⟩], []⟩ "img" "sc" "u"
      (.ok ())).2.2 = [] ∧
    get_or_create_vm ⟨[], [], [⟨"base", "u1", []⟩]⟩ "base" (.ok ()) =
      (.ok ⟨"base", "u1", []⟩, ⟨[], [], [⟨"base", "u1", []⟩]⟩, []) ∧
    createEvents (get_or_create_vm ⟨[], [], [⟨"base", "u1", []⟩]⟩ "base"
      (.ok ())).2.2 = [] := by
  refine ⟨(C2_get_or_create_idempotent ⟨[], [⟨"img", "d"⟩], []⟩ ⟨[], [⟨"img", "d"⟩], []⟩
      ⟨[], [], [⟨"base", "u1", []⟩]⟩ ⟨[], [], [⟨"base", "u1", []⟩]⟩
      "img" "sc" "u" "base" (.ok ()) (.ok ()) (.ok ()) (.ok ())
      ⟨"img", "d"⟩ ⟨"base", "u1", []⟩ [] []).1 (by decide),
    (C2_get_or_create_idempotent ⟨[], [⟨"img", "d"⟩], []⟩ ⟨[], [⟨"img", "d"⟩], []⟩
      ⟨[], [], [⟨"base", "u1", []⟩]⟩ ⟨[], [], [⟨"base", "u1", []⟩]⟩
      "img" "sc" "u" "base" (.ok ()) (.ok ()) (.ok ()) (.ok ())
      ⟨"img", "d"⟩ ⟨"base", "u1", []⟩ [] []).2.1 (by rfl),
    (C2_get_or_create_idempotent ⟨[], [⟨"img", "d"⟩], []⟩ ⟨[], [⟨"img", "d"⟩], []⟩
      ⟨[], [], [⟨"base", "u1", []⟩]⟩ ⟨[], [], [⟨"base", "u1", []⟩]⟩
      "img" "sc" "u" "base" (.ok ()) (.ok ()) (.ok ()) (.ok ())
      ⟨"img", "d"⟩ ⟨"base", "u1", []⟩ [] []).2.2.1 (by decide),
    (C2_get_or_create_idempotent ⟨[], [⟨"img", "d"⟩], []⟩ ⟨[], [⟨"img", "d"⟩], []⟩
      ⟨[], [], [⟨"base", "u1", []⟩]⟩ ⟨[], [], [⟨"base", "u1", []⟩]⟩
      "img" "sc" "u" "base" (.ok ()) (.ok ()) (.ok ()) (.ok ())
      ⟨"img", "d"⟩ ⟨"base", "u1", []⟩ [] []).2.2.2 (by rfl)⟩

/-- C3: one fetched status makes `wait_for_task` raise `TaskFailed` exactly
when the status is `Failed`, break successfully exactly when the percentage
is 100 and the status is `Succeeded`, and otherwise poll the next fetched
status after the fixed sleep. -/
theorem C3_wait_for_task_contract (t : TaskInfo) (ts : List TaskInfo) :
    (wait_step t = .failed ↔ t.progress_status = "Failed") ∧
    (wait_step t = .succeeded ↔
      (t.percentage_complete = 100 ∧ t.progress_status = "Succeeded")) ∧
    (t.progress_status = "Failed" →
      wait_for_task (t :: ts) = some (.error (.taskFailed (taskFailedMsg t)))) ∧
    (t.percentage_complete = 100 → t.progress_status = "Succeeded" →
      wait_for_task (t :: ts) = some (.ok ())) ∧
    (t.progress_status ≠ "Failed" →
      ¬(t.percentage_complete = 100 ∧ t.progress_status = "Succeeded") →
      wait_for_task (t :: ts) = wait_for_task ts) := by
  refine ⟨wait_step_failed_iff t, wait_step_succeeded_iff t, ?_, ?_, ?_⟩
  · intro h
    unfold wait_for_task
    rw [(wait_step_failed_iff t).mpr h]
  · intro h1 h2
    unfold wait_for_task
    rw [(wait_step_succeeded_iff t).mpr ⟨h1, h2⟩]
  · intro h1 h2
    have hp : wait_step t = .poll := by
      rcases hs : wait_step t with _ | _ | _
      · exact absurd ((wait_step_failed_iff t).mp hs) h1
      · exact absurd ((wait_step_succeeded_iff t).mp hs) h2
      · rfl
    conv_lhs => rw [wait_for_task]
    rw [hp]

/-- Witness for C3 at concrete task payloads: a failed task, a finished
task, a 100-percent task that is not yet `Succeeded`, and a `Succeeded`
status below 100 percent. -/
theorem C3_wait_for_task_contract_witness :
    wait_for_task [⟨"Failed", 40⟩] =
      some (.error (.taskFailed (taskFailedMsg ⟨"Failed", 40⟩))) ∧
    wait_for_task [⟨"Succeeded", 100⟩] = some (.ok ()) ∧
    wait_for_task [⟨"Running", 100⟩] = wait_for_task [] ∧
    wait_for_task [⟨"Succeeded", 60⟩] = wait_for_task [] := by
  refine ⟨(C3_wait_for_task_contract ⟨"Failed", 40⟩ []).2.2.1 (by decide),
    (C3_wait_for_task_contract ⟨"Succeeded", 100⟩ []).2.2.2.1 (by decide) (by decide),
    (C3_wait_for_task_contract ⟨"Running", 100⟩ []).2.2.2.2 (by decide) (by decide),
    (C3_wait_for_task_contract ⟨"Succeeded", 60⟩ []).2.2.2.2 (by decide) (by decide)⟩

/-- C5: `clone_vm` generates one spec per node, named
`<role>-<index>-<domain>` with zero-based indices counted per role, and
submits the whole spec list as one clone task followed by one task wait;
the role `worker`, domain `demo`, count 2 instance yields exactly
`worker-0-demo` and `worker-1-demo`. -/
theorem C5_clone_specs (configs : List NodeRoleConfig) (vm_domain : String)
    (st : Cluster) (task : Except NxError Unit) :
    (clone_spec_list configs vm_domain).map (fun s => s.name) =
      configs.flatMap (fun c =>
        (List.range c.number_of_nodes).map (fun i => vm_name i c.role vm_domain)) ∧
    (clone_spec_list configs vm_domain).length =
      (configs.map (fun c => c.number_of_nodes)).sum ∧
    (clone_spec_list [⟨"worker", 2, 2, 4⟩] "demo").map (fun s => s.name) =
      ["worker-0-demo", "worker-1-demo"] ∧
    (clone_vm st configs vm_domain task).2.2 =
      [.submitClone (clone_spec_list configs vm_domain), .waitTask] := by
  refine ⟨clone_spec_list_names configs vm_domain,
    clone_spec_list_length configs vm_domain, by decide, ?_⟩
  rcases task with e | u <;> simp [clone_vm]

/-- C9: `get_vms` without an expected count returns the entity list
unchanged and never raises, and a zero-match search yields an empty
name-to-property mapping from `get_vms_property`. -/
theorem C9_get_vms_unchecked {α : Type} (resp : VmsResponse) (st : Cluster)
    (q : String) (f : VmEnt → α) :
    get_vms resp q none = .ok resp.entities ∧
    get_vms_st st q none = .ok (searchVms st q) ∧
    (searchVms st q = [] → get_vms_property st q f = []) := by
  refine ⟨rfl, rfl, ?_⟩
  intro h
  unfold get_vms_property
  rw [h]
  rfl

/-- Witness for C9: a search that matches nothing yields an empty mapping
without raising. -/
theorem C9_get_vms_unchecked_witness :
    get_vms ⟨[], 0⟩ "vm" none = .ok [] ∧
    get_vms_st ⟨[], [], []⟩ "vm" none = .ok [] ∧
    get_vms_property ⟨[], [], []⟩ "vm" (fun v => v.uuid) = [] := by
  refine ⟨(C9_get_vms_unchecked ⟨[], 0⟩ ⟨[], [], []⟩ "vm" (fun v => v.uuid)).1,
    (C9_get_vms_unchecked ⟨[], 0⟩ ⟨[], [], []⟩ "vm" (fun v => v.uuid)).2.1,
    (C9_get_vms_unchecked ⟨[], 0⟩ ⟨[], [], []⟩ "vm" (fun v => v.uuid)).2.2 (by decide)⟩

theorem poll_ips_all_nonempty (snaps : List (List (String × List String)))
    (m : List (String × List String)) (h : poll_ips snaps = some m) :
    m.all (fun p => !p.2.isEmpty) = true := by
  induction snaps with
  | nil => exact absurd h (by simp [poll_ips])
  | cons s rest ih =>
      unfold poll_ips at h
      by_cases hc : s.all (fun p => !p.2.isEmpty) = true
      · rw [if_pos hc] at h
        injection h with h2
        rw [← h2]
        exact hc
      · rw [if_neg hc] at h
        exact ih h

theorem all_nonempty_host_lines (m : List (String × List String))
    (h : m.all (fun p => !p.2.isEmpty) = true) :
    (inventory_host_lines m).isSome = true := by
  induction m with
  | nil => rfl
  | cons p rest ih =>
      rw [List.all_cons, Bool.and_eq_true] at h
      have ih2 := ih h.2
      have h1 := h.1
      unfold inventory_host_lines
      rcases hp : p.2 with _ | ⟨ip, ips⟩
      · rw [hp] at h1; simp at h1
      · rcases hr : inventory_host_lines rest with _ | ⟨ls⟩
        · rw [hr] at ih2; simp at ih2
        · simp

/-- C10: whenever the IP-readiness polling loop terminates, every VM in
the observed mapping has a non-empty IP list, and the inventory host lines
— each taking the first element of a VM's IP list — are all defined. -/
theorem C10_ip_poll_safety (snaps : List (List (String × List String)))
    (m : List (String × List String)) (h : poll_ips snaps = some m) :
    (∀ p ∈ m, p.2 ≠ []) ∧ (inventory_host_lines m).isSome = true := by
  have hall := poll_ips_all_nonempty snaps m h
  constructor
  · intro p hp
    have := List.all_eq_true.mp hall p hp
    simp at this
    intro hnil
    rw [hnil] at this
    simp at this
  · exact all_nonempty_host_lines m hall

/-- Witness for C10 at a concrete snapshot sequence: the loop skips a
snapshot with a missing IP and terminates on a complete one, whose host
lines are defined. -/
theorem C10_ip_poll_safety_witness :
    (∀ p ∈ [("master-0-demo", ["10.0.0.5"]), ("worker-0-demo", ["10.0.0.6"])],
       p.2 ≠ ([] : List String)) ∧
    (inventory_host_lines
      [("master-0-demo", ["10.0.0.5"]), ("worker-0-demo", ["10.0.0.6"])]).isSome = true :=
  C10_ip_poll_safety
    [[("master-0-demo", []), ("worker-0-demo", ["10.0.0.6"])],
     [("master-0-demo", ["10.0.0.5"]), ("worker-0-demo", ["10.0.0.6"])]]
    [("master-0-demo", ["10.0.0.5"]), ("worker-0-demo", ["10.0.0.6"])] (by decide)

/-- C7: with a valid domain name, loaded configuration and an established
connection, `prepare_env` aborts with `InvalidNumberOfItems` — before any
provisioning side effect — whenever the pre-flight search for the target
domain finds one or more VMs, and the pre-flight check passes when the
search finds none. -/
theorem C7_preflight_collision (w : World) (cfg : K8sConfigs)
    (hdom : domainOk w.k8sClusterName = true)
    (hcfg : w.k8sConfig = .ok cfg) (hconn : w.connect = .ok ()) :
    (1 ≤ (searchVms w.cluster w.k8sClusterName).length →
       prepare_env w = (.failed (.invalidNumberOfItems
         (invalidCountMsg (searchVms w.cluster w.k8sClusterName).length
           "vms" w.k8sClusterName 0)), [])) ∧
    (searchVms w.cluster w.k8sClusterName = [] →
       get_vms_st w.cluster w.k8sClusterName (some 0) = .ok []) := by
  constructor
  · intro h
    have hvms : get_vms_st w.cluster w.k8sClusterName (some 0) =
        .error (.invalidNumberOfItems
          (invalidCountMsg (searchVms w.cluster w.k8sClusterName).length
            "vms" w.k8sClusterName 0)) := by
      rw [get_vms_st_some_eq]
      rw [if_neg (by omega), if_neg (by omega)]
    unfold prepare_env
    rw [hdom, hcfg, hconn, hvms]
    rfl
  · intro h
    rw [get_vms_st_some_eq, h]
    rfl

/-- Witness for C7: a cluster already holding `worker-0-demo` makes the
run abort before any side effect, and an empty cluster passes the check. -/
theorem C7_preflight_collision_witness :
    prepare_env ⟨"demo", .ok ⟨⟨none, none, none⟩, ⟨"master", 1, 2, 4⟩,
        ⟨"worker", 1, 2, 4⟩⟩, .ok (), ⟨[], [], [⟨"worker-0-demo", "u", []⟩]⟩,
        "base", [], .ok (), .ok (), .ok (), []⟩ =
      (.failed (.invalidNumberOfItems (invalidCountMsg 1 "vms" "demo" 0)), []) ∧
    get_vms_st ⟨[], [], []⟩ "demo" (some 0) = .ok [] := by
  constructor
  · exact (C7_preflight_collision ⟨"demo", .ok ⟨⟨none, none, none⟩, ⟨"master", 1, 2, 4⟩,
      ⟨"worker", 1, 2, 4⟩⟩, .ok (), ⟨[], [], [⟨"worker-0-demo", "u", []⟩]⟩,
      "base", [], .ok (), .ok (), .ok (), []⟩
      ⟨⟨none, none, none⟩, ⟨"master", 1, 2, 4⟩, ⟨"worker", 1, 2, 4⟩⟩
      (by decide) rfl rfl).1 (by decide)
  · exact (C7_preflight_collision ⟨"demo", .ok ⟨⟨none, none, none⟩, ⟨"master", 1, 2, 4⟩,
      ⟨"worker", 1, 2, 4⟩⟩, .ok (), ⟨[], [], []⟩,
      "base", [], .ok (), .ok (), .ok (), []⟩
      ⟨⟨none, none, none⟩, ⟨"master", 1, 2, 4⟩, ⟨"worker", 1, 2, 4⟩⟩
      (by decide) rfl rfl).2 (by decide)

/-- C4 counterexample: the claim says every task-returning call — power
state changes included — is immediately followed by waiting on its task,
but `set_vm_power` submits the power call and never waits. -/
theorem C4_counterexample :
    eachSubmitWaited (set_vm_power "uuid-0" "on") = false := by decide

/-- C4 as amended: create, clone and image-create submissions are each
immediately followed by a task wait that drives the task to a terminal
state, but a power-state change submits its call without waiting on the
returned task. -/
theorem C4_submit_then_wait (st : Cluster) (img scn url nm dom uuid state : String)
    (configs : List NodeRoleConfig) (task : Except NxError Unit) :
    eachSubmitWaited (create_image st img scn url task).2.2 = true ∧
    eachSubmitWaited (create_vm st nm task).2.2 = true ∧
    eachSubmitWaited (clone_vm st configs dom task).2.2 = true ∧
    set_vm_power uuid state = [.submitPower uuid] := by
  rcases task with e | u <;>
    simp [create_image, create_vm, clone_vm, set_vm_power, eachSubmitWaited, isSubmit]

theorem takeWhile_dropWhile_all (p : Char → Bool) (a : List Char) (b0 : Char)
    (bs : List Char) (ha : a.all p = true) (hb : p b0 = false) :
    (a ++ b0 :: bs).takeWhile p = a ∧ (a ++ b0 :: bs).dropWhile p = b0 :: bs := by
  induction a with
  | nil => simp [List.takeWhile_cons, List.dropWhile_cons, hb]
  | cons c t ih =>
      rw [List.all_cons, Bool.and_eq_true] at ha
      have := ih ha.2
      simp [List.takeWhile_cons, List.dropWhile_cons, ha.1, this.1, this.2]

theorem all_cont_validUserTail (l : List Char) (h : l.all isUserCont = true) :
    validUserTail l = true := by
  induction l with
  | nil => rfl
  | cons c t ih =>
      rw [List.all_cons, Bool.and_eq_true] at h
      simp [validUserTail, h.1, ih h.2]

theorem all_cont_validUserTail_dollar (l : List Char) (h : l.all isUserCont = true) :
    validUserTail (l ++ [ '$']) = true := by
  induction l with
  | nil => decide
  | cons c t ih =>
      rw [List.all_cons, Bool.and_eq_true] at h
      simp [validUserTail, h.1, ih h.2]

theorem validUserTail_split (t : List Char) (h : validUserTail t = true) :
    t.all isUserCont = true ∨
      ∃ t2, t = t2 ++ [ '$'] ∧ t2.all isUserCont = true := by
  induction t with
  | nil => left; rfl
  | cons c rest ih =>
      rw [validUserTail, Bool.or_eq_true, Bool.and_eq_true, Bool.and_eq_true] at h
      rcases h with ⟨hc, hr⟩ | ⟨hc, hr⟩
      · rcases ih hr with ha | ⟨t2, ht2, ha2⟩
        · left; simp [List.all_cons, hc, ha]
        · right
          refine ⟨c :: t2, ?_, ?_⟩
          · rw [ht2]; rfl
          · simp [List.all_cons, hc, ha2]
      · right
        have hrest : rest = [] := by
          rcases rest with _ | _
          · rfl
          · simp [List.isEmpty] at hr
        have hcd : c = '$' := by simpa using hc
        subst hrest
        exact ⟨[], by rw [hcd]; rfl, rfl⟩

theorem sshKeyMatch_valid_append (u more : List Char) (h : validUser u = true) :
    sshKeyMatch (u ++ ([ '.', 'p', 'u', 'b'] ++ more)) = some u := by
  rcases u with _ | ⟨c, t⟩
  · exact absurd h (by simp [validUser])
  · rw [validUser, Bool.and_eq_true] at h
    rcases validUserTail_split t h.2 with ha | ⟨t2, ht2, ha2⟩
    · have hsplit := takeWhile_dropWhile_all isUserCont t '.'
        ('p' :: 'u' :: 'b' :: more) ha (by decide)
      show sshKeyMatch (c :: (t ++ ([ '.', 'p', 'u', 'b'] ++ more))) = some (c :: t)
      unfold sshKeyMatch
      dsimp only
      rw [if_pos h.1]
      have hx : t ++ ([ '.', 'p', 'u', 'b'] ++ more) =
          t ++ '.' :: ('p' :: 'u' :: 'b' :: more) := rfl
      rw [hx, hsplit.1, hsplit.2]
      split
      · rename_i rest2 heq2
        simp at heq2
      · exact if_pos (List.isPrefixOf_iff_prefix.mpr ⟨more, rfl⟩)
    · subst ht2
      have hsplit := takeWhile_dropWhile_all isUserCont t2 '$'
        ('.' :: 'p' :: 'u' :: 'b' :: more) ha2 (by decide)
      show sshKeyMatch (c :: ((t2 ++ [ '$']) ++ ([ '.', 'p', 'u', 'b'] ++ more))) =
        some (c :: (t2 ++ [ '$']))
      unfold sshKeyMatch
      dsimp only
      rw [if_pos h.1]
      have hx : (t2 ++ [ '$']) ++ ([ '.', 'p', 'u', 'b'] ++ more) =
          t2 ++ '$' :: ('.' :: 'p' :: 'u' :: 'b' :: more) := by
        simp
      rw [hx, hsplit.1, hsplit.2]
      split
      · rename_i rest2 heq2
        rw [List.cons.injEq] at heq2
        rw [← heq2.2]
        exact if_pos (List.isPrefixOf_iff_prefix.mpr ⟨more, rfl⟩)
      · rename_i hne
        exact absurd rfl (hne ('.' :: 'p' :: 'u' :: 'b' :: more))

theorem sshKeyMatch_some_inv (cs us : List Char) (h : sshKeyMatch cs = some us) :
    validUser us = true ∧ ∃ more, cs = us ++ [ '.', 'p', 'u', 'b'] ++ more := by
  rcases cs with _ | ⟨c, t⟩
  · exact absurd h (by simp [sshKeyMatch])
  · unfold sshKeyMatch at h
    dsimp only at h
    by_cases hc : isUserStart c = true
    · rw [if_pos hc] at h
      split at h
      · rename_i rest2 heq
        by_cases hp : [ '.', 'p', 'u', 'b'].isPrefixOf rest2 = true
        · rw [if_pos hp] at h
          injection h with h2
          subst h2
          obtain ⟨more, hmore⟩ := List.isPrefixOf_iff_prefix.mp hp
          refine ⟨?_, more, ?_⟩
          · show (isUserStart c && validUserTail (t.takeWhile isUserCont ++ [ '$'])) = true
            rw [Bool.and_eq_true]
            exact ⟨hc, all_cont_validUserTail_dollar _ List.all_takeWhile⟩
          · have ht : t.takeWhile isUserCont ++ t.dropWhile isUserCont = t := by simp
            rw [heq, ← hmore] at ht
            conv_lhs => rw [← ht]
            simp
        · rw [if_neg hp] at h
          exact absurd h (by simp)
      · by_cases hp : [ '.', 'p', 'u', 'b'].isPrefixOf (t.dropWhile isUserCont) = true
        · rw [if_pos hp] at h
          injection h with h2
          subst h2
          obtain ⟨more, hmore⟩ := List.isPrefixOf_iff_prefix.mp hp
          refine ⟨?_, more, ?_⟩
          · show (isUserStart c && validUserTail (t.takeWhile isUserCont)) = true
            rw [Bool.and_eq_true]
            exact ⟨hc, all_cont_validUserTail _ List.all_takeWhile⟩
          · have ht : t.takeWhile isUserCont ++ t.dropWhile isUserCont = t := by simp
            rw [← hmore] at ht
            conv_lhs => rw [← ht]
            simp
        · rw [if_neg hp] at h
          exact absurd h (by simp)
    · rw [if_neg hc] at h
      exact absurd h (by simp)

theorem filterMap_part_eq (entries : List (String × String)) :
    entries.filterMap (fun e =>
      match sshKeyMatch e.1.data with
      | some u => some (cloud_config_user_part (String.mk u) e.2.trim)
      | none => none) =
    entries.filterMap (fun e => (sshKeyMatch e.1.data).map
      (fun us2 => cloud_config_user_part (String.mk us2) e.2.trim)) := by
  have hfun : (fun (e : String × String) =>
      match sshKeyMatch e.1.data with
      | some u => some (cloud_config_user_part (String.mk u) e.2.trim)
      | none => none) =
      (fun e => (sshKeyMatch e.1.data).map
        (fun us2 => cloud_config_user_part (String.mk us2) e.2.trim)) := by
    funext e
    rcases h : sshKeyMatch e.1.data with _ | u <;> simp [h]
  rw [hfun]

/-- C6 counterexample: the claim accepts any `<username>.pub` whose
username uses lowercase letters, digits, underscore or hyphen, but the
code's pattern additionally requires the first username character to be a
lowercase letter or underscore.  The file name `0.pub` satisfies the
claimed form, yet the code rejects it, so a directory holding only
`0.pub` raises `MissingKeys` where the claim promises a one-user
document. -/
theorem C6_counterexample :
    claimedKeyFileForm "0.pub" = true ∧
    sshKeyMatch "0.pub".data = none ∧
    generate_cloud_config [("0.pub", "KEY")] =
      .error (.missingKeys missingKeysMsg) := by
  refine ⟨by decide, by decide, rfl⟩

/-- C6 as amended: `generate_cloud_config` heads its document with
`#cloud-config\nusers:` and emits exactly one user block, with the trimmed
key contents, per directory entry accepted by `SSH_KEY_FILE_PATTERN`; it
raises `MissingKeys` exactly when no entry is accepted; and the accepted
names are exactly those that start with `<username>.pub` — trailing
characters after `.pub` permitted — where the username starts with a
lowercase letter or underscore, continues with lowercase letters, digits,
underscore or hyphen, and optionally ends with `$`. -/
theorem C6_cloud_config_contract (entries : List (String × String))
    (u more cs us : List Char) :
    (generate_cloud_config entries = .error (.missingKeys missingKeysMsg) ↔
       ∀ e ∈ entries, sshKeyMatch e.1.data = none) ∧
    (validUser u = true →
       sshKeyMatch (u ++ ([ '.', 'p', 'u', 'b'] ++ more)) = some u) ∧
    (sshKeyMatch cs = some us →
       validUser us = true ∧ ∃ m2, cs = us ++ [ '.', 'p', 'u', 'b'] ++ m2) ∧
    (∀ doc, generate_cloud_config entries = .ok doc →
       doc = String.intercalate "\n" (CLOUD_CONFIG_HEADER ::
         entries.filterMap (fun e => (sshKeyMatch e.1.data).map
           (fun us2 => cloud_config_user_part (String.mk us2) e.2.trim)))) := by
  refine ⟨?_, sshKeyMatch_valid_append u more, sshKeyMatch_some_inv cs us, ?_⟩
  · unfold generate_cloud_config
    by_cases hemp : (entries.filterMap (fun e =>
        match sshKeyMatch e.1.data with
        | some u2 => some (cloud_config_user_part (String.mk u2) e.2.trim)
        | none => none)).isEmpty = true
    · rw [if_pos hemp]
      constructor
      · intro _
        have hnil := List.isEmpty_iff.mp hemp
        have hall := List.filterMap_eq_nil_iff.mp hnil
        intro e he
        have h2 := hall e he
        rcases hm : sshKeyMatch e.1.data with _ | u2
        · rfl
        · rw [hm] at h2; simp at h2
      · intro _; rfl
    · rw [if_neg hemp]
      constructor
      · intro hcontra
        exact absurd hcontra (by simp)
      · intro hall
        exfalso
        apply hemp
        rw [List.isEmpty_iff]
        apply List.filterMap_eq_nil_iff.mpr
        intro e he
        rw [hall e he]
  · intro doc hdoc
    unfold generate_cloud_config at hdoc
    by_cases hemp : (entries.filterMap (fun e =>
        match sshKeyMatch e.1.data with
        | some u2 => some (cloud_config_user_part (String.mk u2) e.2.trim)
        | none => none)).isEmpty = true
    · rw [if_pos hemp] at hdoc
      exact absurd hdoc (by simp)
    · rw [if_neg hemp] at hdoc
      injection hdoc with h2
      rw [← h2, filterMap_part_eq]

/-- Witness for C6's amended contract at concrete inputs: an unmatched
directory raises `MissingKeys`, `alice` round-trips through the pattern,
`a.pub` is inverted to its username, and a one-key directory produces the
one-user document. -/
theorem C6_cloud_config_contract_witness :
    generate_cloud_config [("x", "k")] = .error (.missingKeys missingKeysMsg) ∧
    sshKeyMatch (['a', 'l', 'i', 'c', 'e'] ++ ([ '.', 'p', 'u', 'b'] ++ [])) =
      some ['a', 'l', 'i', 'c', 'e'] ∧
    (validUser ['a'] = true ∧
      ∃ m2, "a.pub".data = ['a'] ++ [ '.', 'p', 'u', 'b'] ++ m2) ∧
    String.intercalate "\n" (CLOUD_CONFIG_HEADER ::
        [cloud_config_user_part (String.mk ['a', 'l', 'i', 'c', 'e']) ("KEY".trim)]) =
      String.intercalate "\n" (CLOUD_CONFIG_HEADER ::
        [("alice.pub", "KEY")].filterMap (fun e => (sshKeyMatch e.1.data).map
          (fun us2 => cloud_config_user_part (String.mk us2) e.2.trim))) := by
  refine ⟨(C6_cloud_config_contract [("x", "k")] [] [] [] []).1.mpr (by decide),
    (C6_cloud_config_contract [] ['a', 'l', 'i', 'c', 'e'] [] [] []).2.1 (by decide),
    (C6_cloud_config_contract [] [] [] "a.pub".data ['a']).2.2.1 (by decide),
    (C6_cloud_config_contract [("alice.pub", "KEY")] [] [] [] []).2.2.2
      (String.intercalate "\n" (CLOUD_CONFIG_HEADER ::
        [cloud_config_user_part (String.mk ['a', 'l', 'i', 'c', 'e']) ("KEY".trim)]))
      rfl⟩

theorem writeEvents_nil : writeEvents [] = [] := rfl

theorem writeEvents_append (a b : List PEvent) :
    writeEvents (a ++ b) = writeEvents a ++ writeEvents b := by
  simp [writeEvents]

theorem writeEvents_gocImage (st : Cluster) (n scn url : String)
    (task : Except NxError Unit) :
    writeEvents (get_or_create_os_image st n scn url task).2.2 = [] := by
  unfold get_or_create_os_image
  split
  · rfl
  · cases task <;> rfl
  · rfl

theorem writeEvents_gocVm (st : Cluster) (n : String) (task : Except NxError Unit) :
    writeEvents (get_or_create_vm st n task).2.2 = [] := by
  unfold get_or_create_vm
  split
  · rfl
  · cases task <;> rfl
  · rfl

theorem writeEvents_clone (st : Cluster) (configs : List NodeRoleConfig)
    (dom : String) (task : Except NxError Unit) :
    writeEvents (clone_vm st configs dom task).2.2 = [] := by
  cases task <;> rfl

theorem writeEvents_power (ps : List (String × String)) :
    writeEvents (ps.flatMap (fun p => set_vm_power p.2 "on")) = [] := by
  induction ps with
  | nil => rfl
  | cons p rest ih =>
      rw [List.flatMap_cons, writeEvents_append, ih]
      rfl

theorem prepare_env_write_cases (w : World) (out : RunOutcome) (tr : List PEvent)
    (h : prepare_env w = (out, tr)) :
    (out ≠ RunOutcome.ok ∧ writeEvents tr = []) ∨
    (out = RunOutcome.ok ∧ ∃ c pre,
      tr = pre ++ [PEvent.writeInventory c] ∧ writeEvents pre = []) := by
  unfold prepare_env at h
  dsimp only at h
  repeat' split at h
  all_goals (injection h with h1 h2; subst h1; subst h2)
  all_goals
    first
      | (refine Or.inl ⟨?_, ?_⟩ <;>
          simp [writeEvents_nil, writeEvents_append, writeEvents_gocImage,
            writeEvents_gocVm, writeEvents_clone, writeEvents_power] <;> done)
      | exact Or.inr ⟨rfl, _, _, rfl, by
          simp [writeEvents_nil, writeEvents_append, writeEvents_gocImage,
            writeEvents_gocVm, writeEvents_clone, writeEvents_power]⟩

/-- C8: the inventory file is written exactly once, as the last observable
effect, and only when the whole `prepare_env` sequence completes; a run
that fails at any step — or is still polling — performs no inventory
write. -/
theorem C8_inventory_write_only_after_success (w : World) :
    ((prepare_env w).1 ≠ RunOutcome.ok → writeEvents (prepare_env w).2 = []) ∧
    ((prepare_env w).1 = RunOutcome.ok → ∃ c pre,
      (prepare_env w).2 = pre ++ [PEvent.writeInventory c] ∧
        writeEvents pre = []) := by
  have hc := prepare_env_write_cases w (prepare_env w).1 (prepare_env w).2 rfl
  rcases hc with ⟨hne, hw⟩ | ⟨hok, hex⟩
  · exact ⟨fun _ => hw, fun hcontra => absurd hcontra hne⟩
  · exact ⟨fun hn => absurd hok hn, fun _ => hex⟩

/-- Witness for C8: a run aborted by the domain-name check writes nothing,
and a fully successful run ends with exactly the inventory write. -/
theorem C8_inventory_write_only_after_success_witness :
    writeEvents (prepare_env ⟨"-bad", .ok ⟨⟨none, none, none⟩,
        ⟨"master", 1, 2, 4⟩, ⟨"worker", 1, 2, 4⟩⟩, .ok (), ⟨[], [], []⟩,
        "b", [], .ok (), .ok (), .ok (), []⟩).2 = [] ∧
    (∃ c pre, (prepare_env ⟨"demo", .ok ⟨⟨some "net", some "img", some "sc"⟩,
        ⟨"master", 1, 2, 4⟩, ⟨"worker", 1, 2, 4⟩⟩, .ok (),
        ⟨[⟨"net", "nu"⟩], [⟨"img", "d"⟩], [⟨"b", "u0", []⟩]⟩,
        "b", [("a.pub", "K")], .ok (), .ok (), .ok (),
        [[("master-0-demo", ["10.0.0.5"]), ("worker-0-demo", ["10.0.0.6"])]]⟩).2 =
      pre ++ [PEvent.writeInventory c] ∧ writeEvents pre = []) := by
  constructor
  · exact (C8_inventory_write_only_after_success ⟨"-bad", .ok ⟨⟨none, none, none⟩,
      ⟨"master", 1, 2, 4⟩, ⟨"worker", 1, 2, 4⟩⟩, .ok (), ⟨[], [], []⟩,
      "b", [], .ok (), .ok (), .ok (), []⟩).1 (by decide)
  · exact (C8_inventory_write_only_after_success ⟨"demo", .ok ⟨⟨some "net", some "img", some "sc"⟩,
      ⟨"master", 1, 2, 4⟩, ⟨"worker", 1, 2, 4⟩⟩, .ok (),
      ⟨[⟨"net", "nu"⟩], [⟨"img", "d"⟩], [⟨"b", "u0", []⟩]⟩,
      "b", [("a.pub", "K")], .ok (), .ok (), .ok (),
      [[("master-0-demo", ["10.0.0.5"]), ("worker-0-demo", ["10.0.0.6"])]]⟩).2 (by decide)

end K8sNutanix
